import Mathlib

/-!
Verification development for the FantasyEdgeAI service (`main.py`).

The service is shallowly embedded:
* a pandas DataFrame row becomes a Lean structure of exact rational values
  (`ℚ` models the numeric columns; display rounding / string formatting of
  the HTTP layer is not modelled, only the computed quantities);
* `datetime.datetime.now()` becomes an explicit `now : Int` parameter and
  the `gameWeek` timestamp an `Int`, so `daysSinceLastGame = now - gameWeek`;
* the process-wide globals `model`, `scaler`, `data` become a `ServerState`;
  the third-party estimators (the scikit-learn functions
  `StandardScaler.transform` and `RandomForestRegressor.predict`) are
  deterministic functions held in that state;
* the files written by `joblib.dump` / `DataFrame.to_csv` become a `Disk`
  record of optional artifacts;
* fallible library calls made by `/retrain` (network fetch, scaler fit,
  train/test split, grid-search fit, final fit) are supplied by a
  `SkOracle` of deterministic `Except`-valued functions, reflecting that
  with `random_state=42` fixed everywhere the libraries are deterministic
  functions of their inputs.
-/

/- Core marks the `Rat` arithmetic primitives irreducible; restore
definitional unfolding so that concrete pipeline runs evaluate. -/
attribute [local semireducible] Rat.add Rat.sub Rat.mul Rat.inv

/-- One raw row of the table fetched from the remote stats provider.
The 21 raw numeric feature columns of `get_features()` plus the columns the
endpoints read (`firstName`, `secondName`, `gameWeek`, `totalPoints`,
`position`). -/
structure RawRow where
  firstName : String
  secondName : String
  gameWeek : Int
  totalPoints : ℚ
  position : Int
  goalsScored : ℚ
  assists : ℚ
  cleanSheets : ℚ
  penaltiesSaved : ℚ
  penaltiesMissed : ℚ
  ownGoals : ℚ
  yellowCards : ℚ
  redCards : ℚ
  saves : ℚ
  bonus : ℚ
  bonusPointsSystem : ℚ
  dreamTeamCount : ℚ
  expectedGoals : ℚ
  expectedAssists : ℚ
  expectedGoalInvolvements : ℚ
  expectedGoalsConceded : ℚ
  expectedGoalsPer90 : ℚ
  expectedAssistsPer90 : ℚ
  goalsConcededPer90 : ℚ
  startsPer90 : ℚ
  cleanSheetsPer90 : ℚ
deriving DecidableEq, Inhabited

/-- A raw row together with the derived `playerName` column
(`df["playerName"] = df["firstName"] + " " + df["secondName"]`). -/
structure NamedRow where
  raw : RawRow
  playerName : String
deriving DecidableEq, Inhabited

/-- The assignment `df["playerName"] = df["firstName"] + " " + df["secondName"]`. -/
def addName (r : RawRow) : NamedRow :=
  { raw := r, playerName := r.firstName ++ " " ++ r.secondName }

/-- The sort key of `df.sort_values(by=["playerName", "gameWeek"])`:
player name first, then game week. -/
def rowLeB (a b : NamedRow) : Bool :=
  if a.playerName = b.playerName then a.raw.gameWeek ≤ b.raw.gameWeek
  else a.playerName < b.playerName

/-- The sort relation of `df.sort_values(by=["playerName", "gameWeek"])`. -/
def rowLe (a b : NamedRow) : Prop :=
  rowLeB a b = true

instance : DecidableRel rowLe := fun a b => by
  unfold rowLe; infer_instance

/-- The sort `df.sort_values(by=["playerName", "gameWeek"])` applied after the
`playerName` column is derived. -/
def sortedNamed (df : List RawRow) : List NamedRow :=
  List.insertionSort rowLe (df.map addName)

/-- A row of the working table after `preprocess_data`: the raw columns plus
the derived lag/rolling columns.  A missing value (pandas `NaN`) in a derived
column is `none`. -/
structure AnnRow where
  raw : RawRow
  playerName : String
  previousPoints : Option ℚ
  avgPointsLast3 : Option ℚ
  maxPointsLast5 : Option ℚ
  daysSinceLastGame : Int
deriving DecidableEq, Inhabited

/-- The `totalPoints` series of the group of rows whose `playerName` is `p`,
in frame order (`df.groupby("playerName")["totalPoints"]`). -/
def groupTP (s : List NamedRow) (p : String) : List ℚ :=
  (s.filter (fun x => x.playerName == p)).map (fun x => x.raw.totalPoints)

/-- Number of rows of `l` whose `playerName` is `p`; used for the position of
a row within its `groupby("playerName")` group. -/
def countName (p : String) (l : List NamedRow) : Nat :=
  (l.filter (fun x => x.playerName == p)).length

/-- Maximum of a list of rationals (`Series.rolling(5).max()` on a full
window; the empty case never occurs on a full window). -/
def listMax : List ℚ → ℚ
  | [] => 0
  | x :: xs => xs.foldl max x

/-- The derived columns of one row: `g` is the `totalPoints` series of the
group of the row under `groupby("playerName")`, in frame order, and `j` is
the position of the row within that group.
* `previousPoints`: `groupby(...)["totalPoints"].shift(1)` — the value at
  position `j - 1`, missing at the first row of the group;
* `avgPointsLast3`: `rolling(3).mean()` — mean of positions `j-2 .. j`,
  missing until the window is full;
* `maxPointsLast5`: `rolling(5).max()` — max of positions `j-4 .. j`,
  missing until the window is full;
* `daysSinceLastGame = (datetime.datetime.now() - df["gameWeek"]).dt.days`. -/
def mkAnn (now : Int) (g : List ℚ) (j : Nat) (r : NamedRow) : AnnRow :=
  { raw := r.raw
    playerName := r.playerName
    previousPoints := if j = 0 then none else some (g.getD (j - 1) 0)
    avgPointsLast3 := if 2 ≤ j then some (((g.drop (j - 2)).take 3).sum / 3) else none
    maxPointsLast5 := if 4 ≤ j then some (listMax ((g.drop (j - 4)).take 5)) else none
    daysSinceLastGame := now - r.raw.gameWeek }

/-- Annotate each row of the (already sorted) frame with the derived columns.
`s` is the whole frame (used to look up the group of a row), `pre` the rows
already processed (used for the position of a row within its group). -/
def annotateGo (now : Int) (s : List NamedRow) : List NamedRow → List NamedRow → List AnnRow
  | _, [] => []
  | pre, r :: rest =>
      mkAnn now (groupTP s r.playerName) (countName r.playerName pre) r
        :: annotateGo now s (pre ++ [r]) rest

/-- The three feature-creation assignments of `preprocess_data` on the sorted
frame, one annotated row per input row, in frame order. -/
def annotate (now : Int) (s : List NamedRow) : List AnnRow :=
  annotateGo now s [] s

/-- The drop `df.dropna(subset=["previousPoints", "avgPointsLast3", "maxPointsLast5"])`. -/
def dropna (l : List AnnRow) : List AnnRow :=
  l.filter (fun r =>
    r.previousPoints.isSome && r.avgPointsLast3.isSome && r.maxPointsLast5.isSome)

/-- The pipeline `preprocess_data(df)`: derive `playerName`, sort by
`(playerName, gameWeek)`, create the lag/rolling columns and
`daysSinceLastGame`, and drop rows with a missing derived value.
Rows are schema-conformant by type, matching the source on any nonempty
fetched frame; the one divergence is the empty frame, where the source
raises `KeyError` at `df["firstName"]` (an empty `pd.DataFrame` has no
columns) while this function is total — `/retrain`, the only caller on
fetched data, models that exception explicitly (see `retrain_model`). -/
def preprocess_data (now : Int) (df : List RawRow) : List AnnRow :=
  dropna (annotate now (sortedNamed df))

/-- The rows of the pipeline output belonging to player `p`. -/
def outGroup (now : Int) (df : List RawRow) (p : String) : List AnnRow :=
  (preprocess_data now df).filter (fun r => r.playerName == p)

/-- A raw row for the C2 scenario: single player "A B", ascending game weeks,
every stat other than `totalPoints` zero. -/
def c2row (gw : Int) (tp : ℚ) : RawRow :=
  { (default : RawRow) with
      firstName := "A", secondName := "B", gameWeek := gw, totalPoints := tp,
      position := 3 }

/-- The C2 scenario table: one player, 6 rows in ascending game-week order
with total points `[3, 5, 2, 8, 4, 6]`. -/
def c2df : List RawRow :=
  [c2row 1 3, c2row 2 5, c2row 3 2, c2row 4 8, c2row 5 4, c2row 6 6]

/-- Claim C2: on the table with a single player having 6 ascending game-week
rows with total points `[3,5,2,8,4,6]`, `preprocess_data` outputs exactly the
two rows at group positions 4 and 5: position 4 with `previousPoints = 8`,
`avgPointsLast3 = (2+8+4)/3`, `maxPointsLast5 = 8`, and position 5 with
`previousPoints = 4`, `avgPointsLast3 = (8+4+6)/3 = 6`, `maxPointsLast5 = 8`. -/
theorem preprocess_c2_scenario (now : Int) :
    preprocess_data now c2df =
      [{ raw := c2row 5 4, playerName := "A B", previousPoints := some 8,
         avgPointsLast3 := some (14 / 3), maxPointsLast5 := some 8,
         daysSinceLastGame := now - 5 },
       { raw := c2row 6 6, playerName := "A B", previousPoints := some 4,
         avgPointsLast3 := some 6, maxPointsLast5 := some 8,
         daysSinceLastGame := now - 6 }] := by
  rfl

/-- The helper `get_features()`: the fixed ordered list of the 24 feature column names. -/
def get_features : List String :=
  ["goalsScored", "assists", "cleanSheets", "penaltiesSaved", "penaltiesMissed",
   "ownGoals", "yellowCards", "redCards", "saves", "bonus", "bonusPointsSystem",
   "dreamTeamCount", "expectedGoals", "expectedAssists", "expectedGoalInvolvements",
   "expectedGoalsConceded", "expectedGoalsPer90", "expectedAssistsPer90",
   "goalsConcededPer90", "startsPer90", "cleanSheetsPer90",
   "avgPointsLast3", "maxPointsLast5", "daysSinceLastGame"]

/-- The numeric feature vector of a working-table row, in the column order of
`get_features()` (`player_data[features]`).  The pipeline guarantees the two
rolling columns are present on every surviving row, so reading them with a
default of `0` is exact on pipeline output. -/
def featureVector (r : AnnRow) : List ℚ :=
  [r.raw.goalsScored, r.raw.assists, r.raw.cleanSheets, r.raw.penaltiesSaved,
   r.raw.penaltiesMissed, r.raw.ownGoals, r.raw.yellowCards, r.raw.redCards,
   r.raw.saves, r.raw.bonus, r.raw.bonusPointsSystem, r.raw.dreamTeamCount,
   r.raw.expectedGoals, r.raw.expectedAssists, r.raw.expectedGoalInvolvements,
   r.raw.expectedGoalsConceded, r.raw.expectedGoalsPer90, r.raw.expectedAssistsPer90,
   r.raw.goalsConcededPer90, r.raw.startsPer90, r.raw.cleanSheetsPer90,
   r.avgPointsLast3.getD 0, r.maxPointsLast5.getD 0, (r.daysSinceLastGame : ℚ)]

/-- The process-wide globals of `main.py`: `model` (None until trained, then
`RandomForestRegressor.predict` as a function on one feature vector),
`scaler` (`StandardScaler.transform` as a function on one feature vector) and
`data` (the working table). -/
structure ServerState where
  model : Option (List ℚ → ℚ)
  scaler : List ℚ → List ℚ
  data : List AnnRow

/-- The errors `/predict` can raise: `HTTPException(503)` when no model is
loaded, `HTTPException(404)` when no row matches the player name, and
`HTTPException(500, str(e))` from the catch-all `except`. -/
inductive PredictError where
  | serviceUnavailable : PredictError
  | notFound : PredictError
  | internalError : String → PredictError
deriving DecidableEq

/-- The `/predict` response object.  Numeric fields hold the exact computed
values (Python rounds `predictedPoints` / `percentageChange` for display and
formats the percentages as strings; that presentation layer is not
modelled).  The three optional percentage fields are `none` when the
corresponding key is absent from the response dict. -/
structure PredictResponse where
  playerName : String
  predictedPoints : ℚ
  percentageChange : ℚ
  trend : String
  averageBonusPoints : ℚ
  pointsPerWeek : ℚ
  assistsPercentage : Option ℚ
  goalsPercentage : Option ℚ
  cleanSheetsLast5 : Option ℚ
deriving DecidableEq

/-- The expression `((predicted_points - previous_points) / previous_points * 100) if
previous_points != 0 else 0`. -/
def percentage_change (predicted previous : ℚ) : ℚ :=
  if previous ≠ 0 then (predicted - previous) / previous * 100 else 0

/-- The trailing window `Series.tail(5)`: the trailing (up to) 5 rows. -/
def tail5 (l : List α) : List α :=
  l.drop (l.length - 5)

/-- The mean `Series.mean()`: sum divided by length. -/
def seriesMean (l : List ℚ) : ℚ :=
  l.sum / (l.length : ℚ)

/-- The Python 3 error text raised by the goalkeeper branch of `/predict`,
where `total_games` is read but only ever assigned in the non-goalkeeper
branch. -/
def unboundLocalMsg : String :=
  "UnboundLocalError: local variable total_games referenced before assignment"

/-- The `/predict` handler as a state transformer: the response (or HTTP
error) together with the process state after the request.  The handler never
assigns the globals (there is no `global` statement in `predict`), so every
exit path returns the entering state.
* `model is None` → 503;
* no row with the given `playerName` → 404;
* otherwise: features and `previousPoints` come from the last matching row
  (`iloc[-1]`), the branch on goalkeeper is decided by the position value of
  the first matching row (`values[0]`), the trailing-5 means use however many
  rows exist, while the assists/goals/clean-sheets percentages divide by the
  constant `total_games = 5`;
* the goalkeeper branch reads `total_games`, which Python never assigned on
  that path, so it raises `UnboundLocalError`, which the catch-all `except`
  turns into a 500. -/
def predictHandler (st : ServerState) (player_name : String) :
    Except PredictError PredictResponse × ServerState :=
  match st.model with
  | none => (.error .serviceUnavailable, st)
  | some m =>
    let player_data := st.data.filter (fun r => r.playerName == player_name)
    if player_data.isEmpty then
      (.error .notFound, st)
    else
      let lastRow := player_data.getLastD default
      let player_features_scaled := st.scaler (featureVector lastRow)
      let predicted_points := m player_features_scaled
      let previous_points := lastRow.previousPoints.getD 0
      let pc := percentage_change predicted_points previous_points
      let trend := if pc > 0 then "Increasing" else "Decreasing"
      let position := (player_data.getD 0 default).raw.position
      let t5 := tail5 player_data
      let base : PredictResponse :=
        { playerName := player_name
          predictedPoints := predicted_points
          percentageChange := pc
          trend := trend
          averageBonusPoints := seriesMean (t5.map (fun r => r.raw.bonus))
          pointsPerWeek := seriesMean (t5.map (fun r => r.raw.totalPoints))
          assistsPercentage := none
          goalsPercentage := none
          cleanSheetsLast5 := none }
      if position ≠ 1 then
        let total_games : ℚ := 5
        let assists_count := (t5.map (fun r => r.raw.assists)).sum
        let goals_count := (t5.map (fun r => r.raw.goalsScored)).sum
        (.ok { base with
                assistsPercentage := some (assists_count / total_games * 100)
                goalsPercentage := some (goals_count / total_games * 100) },
         st)
      else
        (.error (.internalError unboundLocalMsg), st)

/-- The response (or error) of one `/predict` call. -/
def predict (st : ServerState) (player_name : String) :
    Except PredictError PredictResponse :=
  (predictHandler st player_name).1

/-- A goalkeeper raw row (`position == 1`). -/
def gkRaw : RawRow :=
  { (default : RawRow) with
      firstName := "Ederson", secondName := "Moraes", gameWeek := 9,
      totalPoints := 6, position := 1, cleanSheets := 3, bonus := 2, saves := 12 }

/-- A working-table row for the goalkeeper. -/
def gkAnn : AnnRow :=
  { raw := gkRaw, playerName := "Ederson Moraes", previousPoints := some 2,
    avgPointsLast3 := some 5, maxPointsLast5 := some 9, daysSinceLastGame := 3 }

/-- A server state with a loaded model and one matching goalkeeper row. -/
def stGK : ServerState :=
  { model := some (fun _ => 6), scaler := fun v => v, data := [gkAnn] }

/-- Claim C1 (code bug, goalkeeper half): a `/predict` request for a player
whose position code is 1, with a model loaded and a matching row present,
does not produce a response containing `cleanSheetsLast5` — the goalkeeper
branch reads the unassigned local `total_games` and the request fails with
HTTP 500 (`UnboundLocalError`). -/
theorem predict_goalkeeper_raises :
    predict stGK "Ederson Moraes" = .error (.internalError unboundLocalMsg) := by
  rfl

/-- A non-goalkeeper raw row. -/
def fwRaw : RawRow :=
  { (default : RawRow) with
      firstName := "Cole", secondName := "Palmer", gameWeek := 7,
      totalPoints := 4, position := 3, assists := 2, goalsScored := 1, bonus := 1 }

/-- A working-table row for the non-goalkeeper, with `previousPoints = 0`. -/
def fwAnn : AnnRow :=
  { raw := fwRaw, playerName := "Cole Palmer", previousPoints := some 0,
    avgPointsLast3 := some 3, maxPointsLast5 := some 6, daysSinceLastGame := 2 }

/-- A server state with a loaded model and one matching non-goalkeeper row. -/
def stC4 : ServerState :=
  { model := some (fun _ => 7), scaler := fun v => v, data := [fwAnn] }

/-- The response `/predict` computes on `stC4` for "Cole Palmer". -/
def respC4 : PredictResponse :=
  { playerName := "Cole Palmer", predictedPoints := 7, percentageChange := 0,
    trend := "Decreasing", averageBonusPoints := 1, pointsPerWeek := 4,
    assistsPercentage := some 40, goalsPercentage := some 20,
    cleanSheetsLast5 := none }

/-- Claim C4: in every successful `/predict` response, `trend` is
"Increasing" exactly when the computed percentage change is strictly
positive and "Decreasing" otherwise; and when the `previousPoints` of the
most recent matching row is 0 the computed percentage change is 0, so `trend` is
"Decreasing". -/
theorem predict_trend (st : ServerState) (pname : String) (resp : PredictResponse)
    (h : predict st pname = .ok resp) :
    (resp.trend = "Increasing" ↔ 0 < resp.percentageChange)
    ∧ (((st.data.filter (fun r => r.playerName == pname)).getLastD default).previousPoints = some 0 →
        resp.percentageChange = 0 ∧ resp.trend = "Decreasing") := by
  unfold predict predictHandler at h
  cases hm : st.model with
  | none => rw [hm] at h; simp at h
  | some m =>
    rw [hm] at h
    simp only at h
    split at h
    · simp at h
    · split at h
      · simp only [Except.ok.injEq] at h
        subst h
        refine ⟨?_, ?_⟩
        · simp only [gt_iff_lt]
          split
          · rename_i h0
            simp only [true_iff]
            exact h0
          · rename_i h0
            simp only [h0, iff_false]
            intro hs
            exact absurd hs (by decide)
        · intro hz
          simp only [hz, Option.getD_some, percentage_change]
          norm_num
      · simp at h

/-- Witness for C4 at the concrete state `stC4`: the most recent (only)
matching row has `previousPoints = 0`, and the response has percentage
change 0 and trend "Decreasing". -/
theorem predict_trend_witness :
    respC4.percentageChange = 0 ∧ respC4.trend = "Decreasing" :=
  (predict_trend stC4 "Cole Palmer" respC4 (by rfl)).2 (by decide)

/-- Claim C5: `/predict` returns 503 whenever no model is loaded — checked
first, regardless of whether the player matches any rows — and returns 404
when a model is loaded but the exact-match lookup of the player name finds
no row. -/
theorem predict_error_codes (st : ServerState) (pname : String) :
    (st.model = none → predict st pname = .error .serviceUnavailable)
    ∧ (∀ m, st.model = some m →
        st.data.filter (fun r => r.playerName == pname) = [] →
        predict st pname = .error .notFound) := by
  constructor
  · intro h
    unfold predict predictHandler
    rw [h]
  · intro m hm he
    unfold predict predictHandler
    rw [hm]
    simp [he]

/-- A server state with no model loaded but a (valid) player row present. -/
def stNoModel : ServerState :=
  { model := none, scaler := fun v => v, data := [fwAnn] }

/-- Witness for C5: with no model loaded, predicting a player that does have
rows still gives 503; with a model loaded, an unknown player gives 404. -/
theorem predict_error_codes_witness :
    predict stNoModel "Cole Palmer" = .error .serviceUnavailable
    ∧ predict stC4 "Ghost Player" = .error .notFound :=
  ⟨(predict_error_codes stNoModel "Cole Palmer").1 rfl,
   (predict_error_codes stC4 "Ghost Player").2 (fun _ => 7) rfl (by decide)⟩

/-- Claim C9: with a model loaded and matching rows present, the
goalkeeper/non-goalkeeper branch of `/predict` is decided by the position of
the first (oldest, as the pipeline sorts game-week ascending) matching row,
while the feature vector fed to the model and the `previousPoints` used for
the percentage change come from the last (most recent) matching row; with
mixed position codes the branch follows the first row (the goalkeeper branch
currently surfaces as the 500 of the `total_games` bug). -/
theorem predict_branch_source_rows (st : ServerState) (pname : String)
    (m : List ℚ → ℚ) (hm : st.model = some m)
    (hne : st.data.filter (fun r => r.playerName == pname) ≠ []) :
    (((st.data.filter (fun r => r.playerName == pname)).getD 0 default).raw.position ≠ 1 →
      (predict st pname).toOption.map (fun r => r.cleanSheetsLast5) = some none
      ∧ (predict st pname).toOption.map (fun r => r.assistsPercentage.isSome) = some true
      ∧ (predict st pname).toOption.map (fun r => r.goalsPercentage.isSome) = some true
      ∧ (predict st pname).toOption.map (fun r => r.predictedPoints)
          = some (m (st.scaler (featureVector
              ((st.data.filter (fun r => r.playerName == pname)).getLastD default))))
      ∧ (predict st pname).toOption.map (fun r => r.percentageChange)
          = some (percentage_change
              (m (st.scaler (featureVector
                ((st.data.filter (fun r => r.playerName == pname)).getLastD default))))
              (((st.data.filter (fun r => r.playerName == pname)).getLastD default).previousPoints.getD 0)))
    ∧ (((st.data.filter (fun r => r.playerName == pname)).getD 0 default).raw.position = 1 →
      predict st pname = .error (.internalError unboundLocalMsg)) := by
  have he : ¬ ((st.data.filter (fun r => r.playerName == pname)).isEmpty = true) := by
    simpa [List.isEmpty_iff] using hne
  constructor
  · intro hp
    unfold predict predictHandler
    rw [hm]
    simp only
    rw [if_neg he, if_pos hp]
    simp [Except.toOption]
  · intro hp1
    unfold predict predictHandler
    rw [hm]
    simp only
    rw [if_neg he, if_neg (not_not_intro hp1)]

/-- A non-goalkeeper row of a player whose most recent row is a goalkeeper
row (mixed position codes across the rows of the player). -/
def mix1 : AnnRow :=
  { raw := { (default : RawRow) with
      firstName := "Mixed", secondName := "Player", gameWeek := 1,
      totalPoints := 3, position := 2, assists := 1 },
    playerName := "Mixed Player", previousPoints := some 1,
    avgPointsLast3 := some 2, maxPointsLast5 := some 3, daysSinceLastGame := 5 }

/-- The most recent row of the mixed player, carrying position code 1. -/
def mix2 : AnnRow :=
  { raw := { (default : RawRow) with
      firstName := "Mixed", secondName := "Player", gameWeek := 2,
      totalPoints := 5, position := 1, goalsScored := 1 },
    playerName := "Mixed Player", previousPoints := some 3,
    avgPointsLast3 := some 4, maxPointsLast5 := some 5, daysSinceLastGame := 4 }

/-- A server state whose matching rows carry different position codes:
oldest row non-goalkeeper, most recent row goalkeeper. -/
def stC9 : ServerState :=
  { model := some (fun _ => 3), scaler := fun v => v, data := [mix1, mix2] }

/-- Witness for C9 at the mixed-position state: the branch follows the
oldest row (non-goalkeeper), while the feature vector and `previousPoints`
come from the most recent row. -/
theorem predict_branch_source_rows_witness :
    (predict stC9 "Mixed Player").toOption.map (fun r => r.cleanSheetsLast5) = some none
    ∧ (predict stC9 "Mixed Player").toOption.map (fun r => r.assistsPercentage.isSome) = some true
    ∧ (predict stC9 "Mixed Player").toOption.map (fun r => r.goalsPercentage.isSome) = some true
    ∧ (predict stC9 "Mixed Player").toOption.map (fun r => r.predictedPoints)
        = some ((fun _ => (3 : ℚ)) (stC9.scaler (featureVector
            ((stC9.data.filter (fun r => r.playerName == "Mixed Player")).getLastD default))))
    ∧ (predict stC9 "Mixed Player").toOption.map (fun r => r.percentageChange)
        = some (percentage_change
            ((fun _ => (3 : ℚ)) (stC9.scaler (featureVector
              ((stC9.data.filter (fun r => r.playerName == "Mixed Player")).getLastD default))))
            (((stC9.data.filter (fun r => r.playerName == "Mixed Player")).getLastD default).previousPoints.getD 0)) :=
  (predict_branch_source_rows stC9 "Mixed Player" (fun _ => 3) rfl (by decide)).1 (by decide)

/-- Taking `tail(5)` of a series with fewer than 5 entries gives the whole series. -/
theorem tail5_of_length_lt_five {α : Type} (l : List α) (h : l.length < 5) :
    tail5 l = l := by
  unfold tail5
  rw [Nat.sub_eq_zero_of_le (Nat.le_of_lt h), List.drop_zero]

/-- Claim C7: for a non-goalkeeper with fewer than 5 matching rows, the
assists and goals percentages divide the sum over the available rows by the
fixed constant 5 (times 100), whereas `averageBonusPoints` and
`pointsPerWeek` are means over only the rows that actually exist. -/
theorem predict_fixed_divisor (st : ServerState) (pname : String)
    (m : List ℚ → ℚ) (resp : PredictResponse)
    (hm : st.model = some m)
    (hlen : (st.data.filter (fun r => r.playerName == pname)).length < 5)
    (hpos : ((st.data.filter (fun r => r.playerName == pname)).getD 0 default).raw.position ≠ 1)
    (hok : predict st pname = .ok resp) :
    resp.assistsPercentage
      = some (((st.data.filter (fun r => r.playerName == pname)).map
          (fun r => r.raw.assists)).sum / 5 * 100)
    ∧ resp.goalsPercentage
      = some (((st.data.filter (fun r => r.playerName == pname)).map
          (fun r => r.raw.goalsScored)).sum / 5 * 100)
    ∧ resp.averageBonusPoints
      = ((st.data.filter (fun r => r.playerName == pname)).map
          (fun r => r.raw.bonus)).sum
        / ((st.data.filter (fun r => r.playerName == pname)).length : ℚ)
    ∧ resp.pointsPerWeek
      = ((st.data.filter (fun r => r.playerName == pname)).map
          (fun r => r.raw.totalPoints)).sum
        / ((st.data.filter (fun r => r.playerName == pname)).length : ℚ) := by
  have htail : tail5 (st.data.filter (fun r => r.playerName == pname))
      = st.data.filter (fun r => r.playerName == pname) :=
    tail5_of_length_lt_five _ hlen
  unfold predict predictHandler at hok
  rw [hm] at hok
  simp only at hok
  by_cases hE : (st.data.filter (fun r => r.playerName == pname)).isEmpty = true
  · rw [if_pos hE] at hok
    exact absurd hok (by simp)
  · rw [if_neg hE, if_pos hpos] at hok
    simp only [Except.ok.injEq] at hok
    subst hok
    rw [htail]
    refine ⟨rfl, rfl, ?_, ?_⟩
    · simp [seriesMean, List.length_map]
    · simp [seriesMean, List.length_map]

/-- First of two matching rows of a non-goalkeeper with fewer than 5 rows. -/
def saka1 : AnnRow :=
  { raw := { (default : RawRow) with
      firstName := "Bukayo", secondName := "Saka", gameWeek := 1,
      totalPoints := 5, position := 3, assists := 1, goalsScored := 0, bonus := 1 },
    playerName := "Bukayo Saka", previousPoints := some 2,
    avgPointsLast3 := some 3, maxPointsLast5 := some 6, daysSinceLastGame := 9 }

/-- Second (most recent) of the two matching rows. -/
def saka2 : AnnRow :=
  { raw := { (default : RawRow) with
      firstName := "Bukayo", secondName := "Saka", gameWeek := 2,
      totalPoints := 7, position := 3, assists := 2, goalsScored := 1, bonus := 3 },
    playerName := "Bukayo Saka", previousPoints := some 5,
    avgPointsLast3 := some 4, maxPointsLast5 := some 7, daysSinceLastGame := 8 }

/-- A server state with a loaded model and exactly 2 (< 5) matching rows. -/
def stC7 : ServerState :=
  { model := some (fun _ => 10), scaler := fun v => v, data := [saka1, saka2] }

/-- The response `/predict` computes on `stC7` for "Bukayo Saka". -/
def respC7 : PredictResponse :=
  { playerName := "Bukayo Saka", predictedPoints := 10, percentageChange := 100,
    trend := "Increasing", averageBonusPoints := 2, pointsPerWeek := 6,
    assistsPercentage := some 60, goalsPercentage := some 20,
    cleanSheetsLast5 := none }

/-- Witness for C7 with 2 matching rows: assists percentage
`(1+2)/5*100 = 60` and goals percentage `1/5*100 = 20` divide by the
constant 5, while the bonus and points means divide by the actual row
count 2. -/
theorem predict_fixed_divisor_witness :
    respC7.assistsPercentage
      = some (((stC7.data.filter (fun r => r.playerName == "Bukayo Saka")).map
          (fun r => r.raw.assists)).sum / 5 * 100)
    ∧ respC7.goalsPercentage
      = some (((stC7.data.filter (fun r => r.playerName == "Bukayo Saka")).map
          (fun r => r.raw.goalsScored)).sum / 5 * 100)
    ∧ respC7.averageBonusPoints
      = ((stC7.data.filter (fun r => r.playerName == "Bukayo Saka")).map
          (fun r => r.raw.bonus)).sum
        / ((stC7.data.filter (fun r => r.playerName == "Bukayo Saka")).length : ℚ)
    ∧ respC7.pointsPerWeek
      = ((stC7.data.filter (fun r => r.playerName == "Bukayo Saka")).map
          (fun r => r.raw.totalPoints)).sum
        / ((stC7.data.filter (fun r => r.playerName == "Bukayo Saka")).length : ℚ) :=
  predict_fixed_divisor stC7 "Bukayo Saka" (fun _ => 10) respC7
    rfl (by decide) (by decide) (by rfl)

/-- Claim C10: every `/predict` request — succeeding or failing with any of
its errors — leaves the process-wide model, scaler and working table
unchanged: the handler has no `global` statement and every exit path returns
the entering state.  (Only `retrain_model` and the startup initializer
rebind those globals.) -/
theorem predict_frame (st : ServerState) (pname : String) :
    (predictHandler st pname).2.model = st.model
    ∧ (predictHandler st pname).2.scaler = st.scaler
    ∧ (predictHandler st pname).2.data = st.data := by
  have h2 : (predictHandler st pname).2 = st := by
    unfold predictHandler
    cases hm : st.model with
    | none => rfl
    | some m =>
      simp only
      split
      · rfl
      · split
        · rfl
        · rfl
  exact ⟨by rw [h2], by rw [h2], by rw [h2]⟩

/-- A hyperparameter value in the grid: integer-valued or the string-valued
`max_features` strategy. -/
inductive ParamVal where
  | nat : Nat → ParamVal
  | str : String → ParamVal
deriving DecidableEq

/-- The `param_grid` of `/retrain`, in source order. -/
def param_grid : List (String × List ParamVal) :=
  [("n_estimators", [.nat 100, .nat 200, .nat 300]),
   ("max_depth", [.nat 5, .nat 10, .nat 15]),
   ("min_samples_split", [.nat 2, .nat 5, .nat 10]),
   ("min_samples_leaf", [.nat 1, .nat 2, .nat 4]),
   ("max_features", [.str "sqrt", .str "log2"])]

/-- All candidate hyperparameter combinations of a grid (the exhaustive
enumeration `GridSearchCV` scores). -/
def gridCombos : List (String × List ParamVal) → List (List (String × ParamVal))
  | [] => [[]]
  | kv :: rest => kv.2.flatMap (fun v => (gridCombos rest).map (fun c => (kv.1, v) :: c))

/-- The selection rule of `GridSearchCV`: the first candidate achieving the best
(highest, as scoring is negative mean squared error) cross-validated score. -/
def selectBest (score : List (String × ParamVal) → ℚ) :
    List (List (String × ParamVal)) → List (String × ParamVal)
  | [] => []
  | c :: cs => cs.foldl (fun best x => if score best < score x then x else best) c

/-- The running best of the grid fold is one of the candidates seen. -/
theorem foldl_pick_mem (score : List (String × ParamVal) → ℚ) :
    ∀ (cs : List (List (String × ParamVal))) (acc : List (String × ParamVal)),
      cs.foldl (fun best x => if score best < score x then x else best) acc ∈ acc :: cs := by
  intro cs
  induction cs with
  | nil => intro acc; simp
  | cons c cs ih =>
    intro acc
    simp only [List.foldl_cons]
    by_cases hc : score acc < score c
    · rw [if_pos hc]
      exact List.mem_cons_of_mem _ (ih c)
    · rw [if_neg hc]
      rcases List.mem_cons.mp (ih acc) with h1 | h2
      · rw [h1]; exact List.mem_cons_self _ _
      · exact List.mem_cons_of_mem _ (List.mem_cons_of_mem _ h2)

/-- The selected combination is one of the enumerated candidates. -/
theorem selectBest_mem (score : List (String × ParamVal) → ℚ)
    (l : List (List (String × ParamVal))) (h : l ≠ []) :
    selectBest score l ∈ l := by
  cases l with
  | nil => exact absurd rfl h
  | cons c cs => exact foldl_pick_mem score cs c

/-- Every candidate of the grid enumeration carries exactly the grid keys,
in grid order. -/
theorem gridCombos_keys :
    ∀ (g : List (String × List ParamVal)), ∀ c ∈ gridCombos g,
      c.map Prod.fst = g.map Prod.fst := by
  intro g
  induction g with
  | nil =>
    intro c hc
    simp only [gridCombos, List.mem_singleton] at hc
    simp [hc]
  | cons kv rest ih =>
    intro c hc
    simp only [gridCombos, List.mem_flatMap, List.mem_map] at hc
    obtain ⟨v, _hv, c2, hc2, rfl⟩ := hc
    simp [ih c2 hc2]

/-- The persisted artifacts: `Player_Data.csv` (the working table),
`fantasy_edge_rf_model.pkl` (the trained model) and `scaler.pkl` (the fitted
scaler).  `none` means the file is absent. -/
structure Disk where
  playerDataCsv : Option (List AnnRow)
  modelPkl : Option (List ℚ → ℚ)
  scalerPkl : Option (List ℚ → List ℚ)

/-- The fallible external computations `/retrain` invokes, each a
deterministic function of its inputs (all random seeds in the source are the
fixed literal 42, passed below at the call sites):
* `fetch`: the body/result of `requests.get(url)` + `raise_for_status`;
* `scalerFitTransform`: `scaler.fit_transform(X)`, returning the newly
  fitted transform and the scaled matrix;
* `trainTestSplit`: `train_test_split(X_scaled, y, test_size=0.2,
  random_state=42)`;
* `gridFit`: the cross-validation work of `GridSearchCV(...).fit`, returning
  the mean CV score (negative MSE) of each candidate;
* `finalFit`: fitting `RandomForestRegressor(random_state=42, **best_params)`
  on the training split, returning the fitted predictor. -/
structure SkOracle where
  fetch : Except String (List RawRow)
  scalerFitTransform :
    List (List ℚ) → Except String ((List ℚ → List ℚ) × List (List ℚ))
  trainTestSplit :
    Nat → List (List ℚ) → List ℚ →
      Except String (List (List ℚ) × List (List ℚ) × List ℚ × List ℚ)
  gridFit :
    List (List ℚ) → List ℚ → Except String (List (String × ParamVal) → ℚ)
  finalFit :
    Nat → List (String × ParamVal) → List (List ℚ) → List ℚ →
      Except String (List ℚ → ℚ)

/-- The fetch step `fetch_data(url)`: on any request failure the exception text is wrapped
as `HTTPException(500, "Data fetch error: ...")`. -/
def fetch_data (response : Except String (List RawRow)) :
    Except String (List RawRow) :=
  match response with
  | .ok df => .ok df
  | .error e => .error ("Data fetch error: " ++ e)

/-- The successful `/retrain` response body. -/
structure RetrainOk where
  message : String
  best_params : List (String × ParamVal)
deriving DecidableEq

/-- The `/retrain` handler: fetch, preprocess, persist the table
(`data.to_csv` — before any training), scale, split, grid-search, fit, and
only then persist model and scaler.  Returns the HTTP result, the globals
after the request and the disk after the request.
On an empty fetched payload `pd.DataFrame([])` has no columns, so
`preprocess_data` raises `KeyError` at `df["firstName"]` before `to_csv`
runs and nothing is written; that is the guard below.  The two successive
rebindings `data = fetch_data(url)`; `data = preprocess_data(data)` are
modelled as one, which is observationally equal because on the surviving
(nonempty) path the embedded pipeline is total; on a failed final fit the
globals keep the previous model (Python leaves an unfitted estimator
bound — a detail no disk artifact depends on). -/
def retrain_model (o : SkOracle) (now : Int) (st : ServerState) (d : Disk) :
    Except String RetrainOk × ServerState × Disk :=
  match fetch_data o.fetch with
  | .error e => (.error e, st, d)
  | .ok raw =>
    if raw = [] then
      (.error "KeyError: firstName", st, d)
    else
    let data1 := preprocess_data now raw
    let st1 : ServerState := { st with data := data1 }
    let d1 : Disk := { d with playerDataCsv := some data1 }
    let X := data1.map featureVector
    let y := data1.map (fun r => r.raw.totalPoints)
    match o.scalerFitTransform X with
    | .error e => (.error e, st1, d1)
    | .ok (newScaler, Xscaled) =>
      let st2 : ServerState := { st1 with scaler := newScaler }
      match o.trainTestSplit 42 Xscaled y with
      | .error e => (.error e, st2, d1)
      | .ok (Xtrain, _Xtest, ytrain, _ytest) =>
        match o.gridFit Xtrain ytrain with
        | .error e => (.error e, st2, d1)
        | .ok cvScore =>
          let best_params := selectBest cvScore (gridCombos param_grid)
          match o.finalFit 42 best_params Xtrain ytrain with
          | .error e => (.error e, st2, d1)
          | .ok m =>
            (.ok { message := "Model retrained successfully",
                   best_params := best_params },
             { st2 with model := some m },
             { d1 with modelPkl := some m, scalerPkl := some newScaler })

/-- An oracle whose fetch succeeds with the nonempty 6-row table `c2df`
(so the real pipeline runs through `to_csv`) and whose grid search then
fails — as `GridSearchCV` with `cv=5` genuinely does here, since only 2 rows
survive the pipeline and the 80/20 split leaves a single training sample. -/
def oC6 : SkOracle :=
  { fetch := .ok c2df
    scalerFitTransform := fun X => .ok (fun v => v, X)
    trainTestSplit := fun _ X y => .ok (X, [], y, [])
    gridFit := fun _ _ =>
      .error "n_splits=5 cannot be greater than the number of samples"
    finalFit := fun _ _ _ _ => .error "unreachable" }

/-- A disk with none of the three artifacts present. -/
def diskC6 : Disk :=
  { playerDataCsv := none, modelPkl := none, scalerPkl := none }

/-- An initial server state with no model and an empty table. -/
def stEmptyC6 : ServerState :=
  { model := none, scaler := fun v => v, data := [] }

/-- Counterexample to claim C6 as stated: a `/retrain` whose remote fetch
succeeds with a nonempty, schema-conformant payload and which then fails
during grid search nevertheless modifies the working-table file, because the
`to_csv` call on the working table runs right after preprocessing, before
any training step. -/
theorem retrain_overwrites_table_on_midfail :
    (retrain_model oC6 0 stEmptyC6 diskC6).1
        = .error "n_splits=5 cannot be greater than the number of samples"
    ∧ oC6.fetch = .ok c2df
    ∧ diskC6.playerDataCsv = none
    ∧ (retrain_model oC6 0 stEmptyC6 diskC6).2.2.playerDataCsv
        = some (preprocess_data 0 c2df)
    ∧ (retrain_model oC6 0 stEmptyC6 diskC6).2.2.playerDataCsv
        ≠ diskC6.playerDataCsv :=
  ⟨rfl, rfl, rfl, rfl, by decide⟩

/-- Claim C6 as amended: when `/retrain` fails after a successful fetch of a
nonempty payload, the model file and the scaler file are untouched (they are
written only at the very end), but the working-table file has already been
overwritten with the newly preprocessed table, since `to_csv` runs before
scaling, grid search and fitting.  Only when the fetched payload is empty —
so preprocessing itself raises `KeyError` before the write — does a failed
run leave the whole disk untouched. -/
theorem retrain_midfail_artifacts (o : SkOracle) (now : Int)
    (st : ServerState) (d : Disk) (raw : List RawRow) (e : String)
    (hfetch : o.fetch = .ok raw)
    (hfail : (retrain_model o now st d).1 = .error e) :
    (retrain_model o now st d).2.2.modelPkl = d.modelPkl
    ∧ (retrain_model o now st d).2.2.scalerPkl = d.scalerPkl
    ∧ (raw ≠ [] → (retrain_model o now st d).2.2.playerDataCsv
        = some (preprocess_data now raw))
    ∧ (raw = [] → (retrain_model o now st d).2.2 = d) := by
  unfold retrain_model fetch_data at hfail ⊢
  rw [hfetch] at hfail ⊢
  simp only at hfail ⊢
  by_cases hraw : raw = []
  · subst hraw
    exact ⟨rfl, rfl, fun hne => absurd rfl hne, fun _ => rfl⟩
  · rw [if_neg hraw] at hfail ⊢
    cases hs : o.scalerFitTransform ((preprocess_data now raw).map featureVector) with
    | error e1 => exact ⟨rfl, rfl, fun _ => rfl, fun h9 => absurd h9 hraw⟩
    | ok pr =>
      obtain ⟨newScaler, Xscaled⟩ := pr
      simp only at hfail ⊢
      cases ht : o.trainTestSplit 42 Xscaled
          ((preprocess_data now raw).map (fun r => r.raw.totalPoints)) with
      | error e2 => exact ⟨rfl, rfl, fun _ => rfl, fun h9 => absurd h9 hraw⟩
      | ok q =>
        obtain ⟨Xtrain, _Xtest, ytrain, _ytest⟩ := q
        simp only at hfail ⊢
        cases hg : o.gridFit Xtrain ytrain with
        | error e3 => exact ⟨rfl, rfl, fun _ => rfl, fun h9 => absurd h9 hraw⟩
        | ok cvScore =>
          simp only at hfail ⊢
          cases hf : o.finalFit 42 (selectBest cvScore (gridCombos param_grid))
              Xtrain ytrain with
          | error e4 => exact ⟨rfl, rfl, fun _ => rfl, fun h9 => absurd h9 hraw⟩
          | ok m => simp [hs, ht, hg, hf] at hfail

/-- Witness for the amended C6 at the concrete mid-training failure: the
model and scaler files stay as they were (absent), while the table file now
holds the freshly preprocessed table of the nonempty payload. -/
theorem retrain_midfail_artifacts_witness :
    (retrain_model oC6 0 stEmptyC6 diskC6).2.2.modelPkl = diskC6.modelPkl
    ∧ (retrain_model oC6 0 stEmptyC6 diskC6).2.2.scalerPkl = diskC6.scalerPkl
    ∧ (retrain_model oC6 0 stEmptyC6 diskC6).2.2.playerDataCsv
        = some (preprocess_data 0 c2df) :=
  have T := retrain_midfail_artifacts oC6 0 stEmptyC6 diskC6 c2df
    "n_splits=5 cannot be greater than the number of samples" rfl rfl
  ⟨T.1, T.2.1, T.2.2.1 (by decide)⟩

/-- Claim C8 as amended: for a fixed fetched dataset, a fixed current date
(`daysSinceLastGame = datetime.now() - gameWeek` is one of the 24 model
features, so the date is an input of training) and the fixed (seed-42)
deterministic library behaviour, the result of `/retrain` does not depend on
the previous in-process state or on-disk artifacts: a second run returns the
same `best_params` (a record with exactly the five tuned hyperparameter
names) and persists the same trained model. -/
theorem retrain_deterministic (o : SkOracle) (now : Int)
    (st₁ st₂ : ServerState) (d₁ d₂ : Disk) (r : RetrainOk)
    (h : (retrain_model o now st₁ d₁).1 = .ok r) :
    (retrain_model o now st₂ d₂).1 = .ok r
    ∧ (retrain_model o now st₂ d₂).2.2.modelPkl
        = (retrain_model o now st₁ d₁).2.2.modelPkl
    ∧ r.best_params.map Prod.fst
        = ["n_estimators", "max_depth", "min_samples_split",
           "min_samples_leaf", "max_features"] := by
  unfold retrain_model at h ⊢
  cases hfe : fetch_data o.fetch with
  | error e0 => simp [hfe] at h
  | ok raw =>
    simp only at h ⊢
    by_cases hraw : raw = []
    · simp [hfe, hraw] at h
    · rw [if_neg hraw, if_neg hraw]
      cases hs : o.scalerFitTransform ((preprocess_data now raw).map featureVector) with
      | error e1 => simp [hfe, hraw, hs] at h
      | ok pr =>
        obtain ⟨newScaler, Xscaled⟩ := pr
        simp only at h ⊢
        cases ht : o.trainTestSplit 42 Xscaled
            ((preprocess_data now raw).map (fun r => r.raw.totalPoints)) with
        | error e2 => simp [hfe, hraw, hs, ht] at h
        | ok q =>
          obtain ⟨Xtrain, _Xtest, ytrain, _ytest⟩ := q
          simp only at h ⊢
          cases hg : o.gridFit Xtrain ytrain with
          | error e3 => simp [hfe, hraw, hs, ht, hg] at h
          | ok cvScore =>
            simp only at h ⊢
            cases hf : o.finalFit 42 (selectBest cvScore (gridCombos param_grid))
                Xtrain ytrain with
            | error e4 => simp [hfe, hraw, hs, ht, hg, hf] at h
            | ok m =>
              simp only [hfe] at h
              rw [if_neg hraw] at h
              simp only [hs, ht, hg, hf, Except.ok.injEq] at h
              subst h
              refine ⟨rfl, rfl, ?_⟩
              have hmem : selectBest cvScore (gridCombos param_grid)
                  ∈ gridCombos param_grid :=
                selectBest_mem cvScore (gridCombos param_grid) (by decide)
              simpa using gridCombos_keys param_grid _ hmem

/-- An oracle whose every step succeeds on the nonempty payload `c2df`,
with a constant grid score. -/
def oC8 : SkOracle :=
  { fetch := .ok c2df
    scalerFitTransform := fun X => .ok (fun v => v, X)
    trainTestSplit := fun _ X y => .ok (X, [], y, [])
    gridFit := fun _ _ => .ok (fun _ => 0)
    finalFit := fun _ _ _ _ => .ok (fun _ => 0) }

/-- A second, different starting state for the second `/retrain` run. -/
def stC8b : ServerState :=
  { model := some (fun _ => 1), scaler := fun v => v, data := [gkAnn] }

/-- A second, different starting disk for the second `/retrain` run. -/
def diskC8b : Disk :=
  { playerDataCsv := some [gkAnn], modelPkl := some (fun _ => 1),
    scalerPkl := some (fun v => v) }

/-- The `best_params` the all-ok oracle selects. -/
def bestC8 : List (String × ParamVal) :=
  selectBest (fun _ => 0) (gridCombos param_grid)

/-- The `/retrain` response of the all-ok oracle. -/
def rC8 : RetrainOk :=
  { message := "Model retrained successfully", best_params := bestC8 }

/-- Witness for C8: a first run from an empty state returns `rC8`; a second
run from a different state and disk returns the same response, persists the
same model, and the selected `best_params` has exactly the five tuned
hyperparameter names. -/
theorem retrain_deterministic_witness :
    (retrain_model oC8 0 stC8b diskC8b).1 = .ok rC8
    ∧ (retrain_model oC8 0 stC8b diskC8b).2.2.modelPkl
        = (retrain_model oC8 0 stEmptyC6 diskC6).2.2.modelPkl
    ∧ rC8.best_params.map Prod.fst
        = ["n_estimators", "max_depth", "min_samples_split",
           "min_samples_leaf", "max_features"] :=
  retrain_deterministic oC8 0 stEmptyC6 stC8b diskC6 diskC8b rC8 rfl

/-- Two filters commute. -/
theorem filter_filter_comm {α : Type} (p q : α → Bool) (l : List α) :
    (l.filter p).filter q = (l.filter q).filter p := by
  rw [List.filter_filter, List.filter_filter]
  exact List.filter_congr (fun a _ => Bool.and_comm (q a) (p a))

/-- A row survives `dropna` exactly when its within-group position is at
least 4 (the `rolling(5)` window is then full, which also fills the
`rolling(3)` window and the `shift(1)` lag). -/
theorem dropnaPred_mkAnn (now : Int) (g : List ℚ) (j : Nat) (r : NamedRow) :
    ((mkAnn now g j r).previousPoints.isSome
      && ((mkAnn now g j r).avgPointsLast3.isSome
      && (mkAnn now g j r).maxPointsLast5.isSome)) = decide (4 ≤ j) := by
  unfold mkAnn
  by_cases h4 : 4 ≤ j
  · have h0 : ¬ j = 0 := by omega
    have h2 : 2 ≤ j := by omega
    simp [h0, h2, h4]
  · simp [h4]

/-- Filtering `range n` by `4 ≤ ·` leaves the positions `4, …, n-1`. -/
theorem filter_range_ge_four (n : Nat) :
    (List.range n).filter (fun j => decide (4 ≤ j))
      = (List.range (n - 4)).map (fun j => j + 4) := by
  induction n with
  | zero => simp
  | succ n ih =>
    rw [List.range_succ, List.filter_append, ih]
    by_cases h4 : 4 ≤ n
    · have hn : n + 1 - 4 = (n - 4) + 1 := by omega
      have hn2 : n - 4 + 4 = n := by omega
      rw [hn, List.range_succ, List.map_append]
      simp [List.filter_cons, h4, hn2]
    · have hn : n + 1 - 4 = 0 := by omega
      have hn2 : n - 4 = 0 := by omega
      simp [List.filter_cons, h4, hn, hn2]

/-- Filtering the annotated frame by player name yields exactly the
positional annotations of the group of that player: grouping commutes with the
per-row annotation.  `pre` accumulates the processed rows, so the `j`-th row
of the group is annotated at within-group position
`j + (number of group rows already in pre)`. -/
theorem annotateGo_filter (now : Int) (s : List NamedRow) (p : String) :
    ∀ (l pre : List NamedRow),
      (annotateGo now s pre l).filter (fun a => a.playerName == p)
        = (List.range ((l.filter (fun x => x.playerName == p)).length)).map
            (fun j => mkAnn now (groupTP s p)
              (j + (pre.filter (fun x => x.playerName == p)).length)
              ((l.filter (fun x => x.playerName == p)).getD j default))
  | [], pre => by simp [annotateGo]
  | r :: rest, pre => by
    have ih := annotateGo_filter now s p rest (pre ++ [r])
    by_cases hp : r.playerName = p
    · subst hp
      have hfilterN : (r :: rest).filter (fun x => x.playerName == r.playerName)
          = r :: rest.filter (fun x => x.playerName == r.playerName) := by
        rw [List.filter_cons, if_pos (by simp)]
      rw [hfilterN]
      simp only [annotateGo]
      rw [List.filter_cons, if_pos (by simp [mkAnn])]
      rw [ih]
      have hpre : ((pre ++ [r]).filter (fun x => x.playerName == r.playerName)).length
          = (pre.filter (fun x => x.playerName == r.playerName)).length + 1 := by
        simp [List.filter_append, List.filter_cons]
      rw [List.length_cons, List.range_succ_eq_map, List.map_cons, List.map_map]
      congr 1
      · simp [countName, mkAnn]
      · apply List.map_congr_left
        intro j _
        simp only [Function.comp_apply, List.getD_cons_succ]
        rw [hpre, (by omega : j + ((pre.filter
            (fun x => x.playerName == r.playerName)).length + 1)
          = Nat.succ j + (pre.filter (fun x => x.playerName == r.playerName)).length)]
    · have hfilterN : (r :: rest).filter (fun x => x.playerName == p)
          = rest.filter (fun x => x.playerName == p) := by
        rw [List.filter_cons, if_neg (by simp [hp])]
      have hpre : ((pre ++ [r]).filter (fun x => x.playerName == p)).length
          = (pre.filter (fun x => x.playerName == p)).length := by
        simp [List.filter_append, List.filter_cons, hp]
      simp only [annotateGo]
      rw [List.filter_cons, if_neg (by simp [mkAnn, hp])]
      rw [ih, hpre, hfilterN]

/-- Grouping the annotated frame by a player name. -/
theorem annotate_filter (now : Int) (s : List NamedRow) (p : String) :
    (annotate now s).filter (fun a => a.playerName == p)
      = (List.range ((s.filter (fun x => x.playerName == p)).length)).map
          (fun j => mkAnn now (groupTP s p) j
            ((s.filter (fun x => x.playerName == p)).getD j default)) := by
  rw [annotate, annotateGo_filter now s p s []]
  rfl

/-- Applying `dropna` on the positional annotations of a group keeps exactly the
positions `4, …, n-1`. -/
theorem dropna_map_mkAnn (now : Int) (G : List ℚ) (gl : List NamedRow) (n : Nat) :
    dropna ((List.range n).map (fun j => mkAnn now G j (gl.getD j default)))
      = (List.range (n - 4)).map
          (fun j => mkAnn now G (j + 4) (gl.getD (j + 4) default)) := by
  have hpt : ∀ j ∈ List.range n,
      ((fun r => r.previousPoints.isSome && r.avgPointsLast3.isSome
          && r.maxPointsLast5.isSome)
        ∘ (fun j => mkAnn now G j (gl.getD j default))) j = decide (4 ≤ j) := by
    intro j _
    simp only [Function.comp_apply]
    rw [Bool.and_assoc]
    exact dropnaPred_mkAnn now G j (gl.getD j default)
  unfold dropna
  rw [List.filter_map, List.filter_congr hpt, filter_range_ge_four, List.map_map]
  rfl

/-- The pipeline output for one player is exactly the annotations of that
sorted group of the player at within-group positions `4, …, n-1`. -/
theorem outGroup_characterization (now : Int) (df : List RawRow) (p : String) :
    outGroup now df p
      = (List.range
            (((sortedNamed df).filter (fun x => x.playerName == p)).length - 4)).map
          (fun j => mkAnn now (groupTP (sortedNamed df) p) (j + 4)
            (((sortedNamed df).filter (fun x => x.playerName == p)).getD (j + 4) default)) := by
  unfold outGroup preprocess_data dropna
  rw [filter_filter_comm, annotate_filter]
  have hd := dropna_map_mkAnn now (groupTP (sortedNamed df) p)
    ((sortedNamed df).filter (fun x => x.playerName == p))
    ((sortedNamed df).filter (fun x => x.playerName == p)).length
  unfold dropna at hd
  rw [hd]

/-- Claim C3: for every input table and every player, taking the rows of
that player in the sorted (game-week-ascending) order, the `previousPoints` of the
pipeline-output row at group position `i = j + 4` equals the `totalPoints`
at position `i - 1 = j + 3` of the group of the same player; every output row has
a present `previousPoints`; and the annotated first row of any player group
(whose `previousPoints` is missing) is absent from the output. -/
theorem preprocess_prev_points (now : Int) (df : List RawRow) (p : String) :
    (∀ j, j < (outGroup now df p).length →
      ((outGroup now df p).getD j default).previousPoints
          = some ((groupTP (sortedNamed df) p).getD (j + 3) 0)
      ∧ ((outGroup now df p).getD j default).raw
          = (((sortedNamed df).filter (fun x => x.playerName == p)).getD (j + 4) default).raw)
    ∧ (∀ r ∈ preprocess_data now df, r.previousPoints ≠ none)
    ∧ mkAnn now (groupTP (sortedNamed df) p) 0
        (((sortedNamed df).filter (fun x => x.playerName == p)).getD 0 default)
      ∉ preprocess_data now df := by
  refine ⟨?_, ?_, ?_⟩
  · intro j hj
    rw [outGroup_characterization] at hj ⊢
    rw [List.length_map, List.length_range] at hj
    have hjlen : j < ((List.range
        ((((sortedNamed df).filter (fun x => x.playerName == p)).length - 4))).map
          (fun j => mkAnn now (groupTP (sortedNamed df) p) (j + 4)
            (((sortedNamed df).filter (fun x => x.playerName == p)).getD (j + 4) default))).length := by
      rw [List.length_map, List.length_range]
      exact hj
    rw [List.getD_eq_getElem _ _ hjlen]
    simp only [List.getElem_map, List.getElem_range]
    constructor
    · unfold mkAnn
      simp only
      rw [if_neg (by omega), (by omega : j + 4 - 1 = j + 3)]
    · rfl
  · intro r hr hnone
    unfold preprocess_data dropna at hr
    rw [List.mem_filter] at hr
    rw [hnone] at hr
    simp at hr
  · intro hmem
    unfold preprocess_data dropna at hmem
    rw [List.mem_filter] at hmem
    obtain ⟨-, hpred⟩ := hmem
    unfold mkAnn at hpred
    simp at hpred

/-- Witness for C3 on the C2 scenario table: the first surviving row of
player "A B" (group position 4) has `previousPoints` equal to the
`totalPoints` of the group at position 3, and its raw row is the one at group
position 4. -/
theorem preprocess_prev_points_witness :
    ((outGroup 0 c2df "A B").getD 0 default).previousPoints
        = some ((groupTP (sortedNamed c2df) "A B").getD (0 + 3) 0)
    ∧ ((outGroup 0 c2df "A B").getD 0 default).raw
        = (((sortedNamed c2df).filter (fun x => x.playerName == "A B")).getD (0 + 4) default).raw :=
  (preprocess_prev_points 0 c2df "A B").1 0 (by decide)

/-- The first candidate of the grid enumeration (all first grid values). -/
def comboFirst : List (String × ParamVal) :=
  [("n_estimators", .nat 100), ("max_depth", .nat 5), ("min_samples_split", .nat 2),
   ("min_samples_leaf", .nat 1), ("max_features", .str "sqrt")]

/-- The second candidate of the grid enumeration: as `comboFirst` but with
`max_features = "log2"` (the innermost grid key varies fastest). -/
def comboSecond : List (String × ParamVal) :=
  [("n_estimators", .nat 100), ("max_depth", .nat 5), ("min_samples_split", .nat 2),
   ("min_samples_leaf", .nat 1), ("max_features", .str "log2")]

/-- Folding the grid over a running best leaves the start candidate in place
when no candidate scores strictly higher. -/
theorem foldl_pick_stay (score : List (String × ParamVal) → ℚ)
    (w : List (String × ParamVal)) (cs : List (List (String × ParamVal)))
    (h : ∀ x, ¬ score w < score x) :
    cs.foldl (fun best x => if score best < score x then x else best) w = w := by
  induction cs with
  | nil => rfl
  | cons x xs ih =>
    simp only [List.foldl_cons]
    rw [if_neg (h x)]
    exact ih

/-- The head candidate is selected when nothing scores strictly higher. -/
theorem selectBest_head (score : List (String × ParamVal) → ℚ)
    (c : List (String × ParamVal)) (cs : List (List (String × ParamVal)))
    (h : ∀ x, ¬ score c < score x) :
    selectBest score (c :: cs) = c :=
  foldl_pick_stay score c cs h

/-- The second candidate is selected when it beats the head and nothing
scores strictly higher than it. -/
theorem selectBest_second (score : List (String × ParamVal) → ℚ)
    (c w : List (String × ParamVal)) (rest : List (List (String × ParamVal)))
    (h1 : score c < score w) (h2 : ∀ x, ¬ score w < score x) :
    selectBest score (c :: w :: rest) = w := by
  simp only [selectBest, List.foldl_cons]
  rw [if_pos h1]
  exact foldl_pick_stay score w rest h2

/-- The grid score of the date-sensitive oracle `oC8now`, as a function of
the request date: candidate `comboSecond` scores the (negative MSE) `0`
when the `daysSinceLastGame` entry of the first training row (feature
index 23) is `-5` — i.e. when the run happens at `now = 0` — and `1`
otherwise; every other candidate scores `0`. -/
def c8score (now : Int) (c : List (String × ParamVal)) : ℚ :=
  if c = comboSecond then
    (if (((preprocess_data now c2df).map featureVector).getD 0 []).getD 23 0 = -5
      then 0 else 1)
  else 0

/-- An all-ok oracle on the fixed payload `c2df` whose cross-validated score
depends on the feature matrix through the `daysSinceLastGame` column
(feature index 23) — as cross-validated errors genuinely do, since that
column is one of the 24 model features. -/
def oC8now : SkOracle :=
  { fetch := .ok c2df
    scalerFitTransform := fun X => .ok (fun v => v, X)
    trainTestSplit := fun _ X y => .ok (X, [], y, [])
    gridFit := fun X _ => .ok (fun c =>
      if c = comboSecond then (if (X.getD 0 []).getD 23 0 = -5 then 0 else 1) else 0)
    finalFit := fun _ _ _ _ => .ok (fun _ => 0) }

/-- Counterexample to claim C8 as stated: two `/retrain` runs on the same
fixed fetched dataset, executed at different dates (`now = 0` and
`now = 1`), both succeed yet select different `best_params` — the result
varies with the current date and not only with the input data, because
`daysSinceLastGame = datetime.now() - gameWeek` is one of the 24 model
features, so the training matrix changes with the date. -/
theorem retrain_now_dependent :
    oC8now.fetch = .ok c2df
    ∧ (retrain_model oC8now 0 stEmptyC6 diskC6).1
        = .ok { message := "Model retrained successfully", best_params := comboFirst }
    ∧ (retrain_model oC8now 1 stEmptyC6 diskC6).1
        = .ok { message := "Model retrained successfully", best_params := comboSecond }
    ∧ comboFirst ≠ comboSecond := by
  have hv0 : ((((preprocess_data 0 c2df).map featureVector).getD 0 []).getD 23 0 : ℚ)
      = -5 := by decide
  have hv1 : ((((preprocess_data 1 c2df).map featureVector).getD 0 []).getD 23 0 : ℚ)
      = -4 := by decide
  have hcc : comboFirst ≠ comboSecond := by decide
  have hshape : gridCombos param_grid
      = comboFirst :: comboSecond :: (gridCombos param_grid).drop 2 := by decide
  refine ⟨rfl, ?_, ?_, hcc⟩
  · have h0 : (retrain_model oC8now 0 stEmptyC6 diskC6).1
        = .ok { message := "Model retrained successfully",
                best_params := selectBest (c8score 0) (gridCombos param_grid) } := rfl
    rw [h0, hshape]
    have hsel : selectBest (c8score 0)
        (comboFirst :: comboSecond :: (gridCombos param_grid).drop 2) = comboFirst := by
      apply selectBest_head
      intro x
      by_cases hx : x = comboSecond
      · subst hx
        decide
      · simp [c8score, hx, hcc]
    rw [hsel]
  · have h1 : (retrain_model oC8now 1 stEmptyC6 diskC6).1
        = .ok { message := "Model retrained successfully",
                best_params := selectBest (c8score 1) (gridCombos param_grid) } := rfl
    rw [h1, hshape]
    have hsel : selectBest (c8score 1)
        (comboFirst :: comboSecond :: (gridCombos param_grid).drop 2) = comboSecond := by
      apply selectBest_second
      · decide
      · intro x
        by_cases hx : x = comboSecond
        · subst hx
          decide
        · simp only [c8score, if_neg hx]
          decide
    rw [hsel]
